import Mathlib

/-!
Shallow embedding of the invocation-routing and response-classification core
of the ethicalzen-aws-accelerator demo application (src/app/signing.py,
src/app/bedrock_client.py, src/app/ethicalzen_proxy_client.py,
src/app/models.py, src/app/main.py).

Modelling conventions:
* `os.environ` is an explicit `Env` value (`String → Option String`);
  `os.environ[k]` raising `KeyError` is `envIndex`, returning `Except`.
* Header dictionaries are lookup functions `String → Option String`;
  Python dict assignment is `hset`.
* Request body bytes are modelled by the serialized JSON `String`
  (UTF-8 encoding is injective, so byte identity is string identity).
* The external botocore SigV4 signer and the httpx network call are
  function parameters (`SigV4`, `Net`): the program treats both as black
  boxes, so every theorem quantifies over them.
* `resp.json()` is modelled by `HttpResponse.jsonBody : Option JsonBody`;
  `none` covers both a parse failure and a non-object JSON value (in both
  cases every dict access in the source raises, which is what the branch
  behaviour depends on).  A present field of the JSON object is `some`.
* Python exceptions propagating out of a function are `Except.error`
  carrying a `PyError`.
* Floating-point values are avoided: the gateway validation-duration
  header is carried as its raw string when `float(raw)` accepts it
  (`float` is a function of the raw header, so the raw string determines
  the parsed value), and `float(raw)` raising `ValueError` on a truthy
  but non-parseable header is modelled explicitly (`isPyFloatString`
  recognizes CPython's float-literal grammar).  The wall-clock
  `total_latency_ms` field is outside the embedding (real time is not
  representable here and no claim mentions it).
-/

/-- Process environment: variable name to optional value. -/
structure Env where
  vars : String → Option String

/-- `os.environ.get(k)`. -/
def envGet (env : Env) (k : String) : Option String :=
  env.vars k

/-- `os.environ.get(k, d)`. -/
def envGetD (env : Env) (k d : String) : String :=
  (env.vars k).getD d

/-- Python exceptions that can escape the embedded functions. -/
inductive PyError where
  | keyError (k : String)
  | jsonError
  | valueError (msg : String)
  | transportExn (msg : String)
deriving DecidableEq

/-- `os.environ[k]` — raises `KeyError` when the variable is absent. -/
def envIndex (env : Env) (k : String) : Except PyError String :=
  match envGet env k with
  | some v => Except.ok v
  | none => Except.error (PyError.keyError k)

/-- Header dictionary: header name to optional value. -/
abbrev Headers := String → Option String

/-- The empty header dictionary. -/
def emptyHeaders : Headers := fun _ => none

/-- Python dict assignment `h[k] = v`. -/
def hset (h : Headers) (k v : String) : Headers :=
  fun k2 => if k2 = k then some v else h k2

/-- `ChatMode` from src/app/models.py. -/
inductive ChatMode where
  | direct
  | mode_a
deriving DecidableEq

/-- `BlockedBy` from src/app/models.py. -/
inductive BlockedBy where
  | none
  | bedrock_guardrail
  | ethicalzen_guardrail
deriving DecidableEq

/-- `ChatResponse` from src/app/models.py (the invocation verdict).
`validation_ms` carries the raw non-empty duration header instead of its
float value; the wall-clock `total_latency_ms` field is omitted (real
time is outside the embedding). -/
structure ChatResponse where
  response : String
  mode : ChatMode
  model : String
  blocked : Bool := false
  blocked_by : BlockedBy := BlockedBy.none
  trace_id : Option String := none
  ethicalzen_status : Option String := none
  validation_ms : Option String := none
deriving DecidableEq

/-- `ChatRequest` from src/app/models.py. -/
structure ChatRequest where
  message : String
  mode : ChatMode := ChatMode.mode_a
  model_id : String := "meta.llama3-8b-instruct-v1:0"
  guardrail_identifier : Option String := none
  guardrail_version : Option String := none
deriving DecidableEq

/-- JSON object bodies as far as the source inspects them: the three
fields read anywhere are `message`, `error` and `generation`; `none`
means the field is absent. -/
structure JsonBody where
  message : Option String := none
  error : Option String := none
  generation : Option String := none
deriving DecidableEq

/-- An HTTP response as the source observes it: status code, header
lookup (already case-folded the way httpx performs lookups), `resp.text`,
and `resp.json()` (`none` when that call would raise). -/
structure HttpResponse where
  status_code : Nat
  headers : Headers
  text : String
  jsonBody : Option JsonBody

/-- Outcome of the single `httpx` POST: transport failure (connection
error / timeout exception) or a received response. -/
inductive TransportResult where
  | failure (msg : String)
  | success (resp : HttpResponse)

/-- The network, abstracted: URL, headers and body to the transport
outcome. -/
abbrev Net := String → Headers → String → TransportResult

/-- botocore credentials (access key, secret key, optional session
token). -/
structure Credentials where
  access_key : String
  secret_key : String
  token : Option String

/-- botocore `AWSRequest`: method, URL, body bytes, headers. -/
structure AWSRequest where
  method : String
  url : String
  data : String
  headers : Headers

/-- The external SigV4 signer (`SigV4Auth(credentials, service,
region).add_auth(request)` followed by `dict(request.headers)`):
credentials, service name, region and the request to the signed header
set. -/
abbrev SigV4 := Credentials → String → String → AWSRequest → Headers

/-- src/app/signing.py `uses_bearer_token`:
`bool(os.environ.get("AWS_BEARER_TOKEN_BEDROCK"))` — true exactly when
the variable is present and non-empty. -/
def uses_bearer_token (env : Env) : Bool :=
  match envGet env "AWS_BEARER_TOKEN_BEDROCK" with
  | some s => s ≠ ""
  | none => false

/-- src/app/signing.py `get_bedrock_endpoint`. -/
def get_bedrock_endpoint (region model_id : String) : String :=
  "https://bedrock-runtime." ++ region ++ ".amazonaws.com/model/" ++ model_id ++ "/invoke"

/-- The guardrail-header attachment shared verbatim by
`build_bearer_headers` and `sign_bedrock_request`
(`if guardrail_identifier: ...` — Python truthiness, so `None` and the
empty string are both skipped). -/
def addGuardrailHeaders (h : Headers) (gi gv : Option String) : Headers :=
  let h1 :=
    match gi with
    | some s => if s ≠ "" then hset h "X-Amzn-Bedrock-GuardrailIdentifier" s else h
    | none => h
  match gv with
  | some s => if s ≠ "" then hset h1 "X-Amzn-Bedrock-GuardrailVersion" s else h1
  | none => h1

/-- The `Content-Type`/`Accept` base header dict both auth modes start
from. -/
def baseJsonHeaders : Headers :=
  hset (hset emptyHeaders "Content-Type" "application/json") "Accept" "application/json"

/-- src/app/signing.py `build_bearer_headers`. -/
def build_bearer_headers (env : Env) (gi gv : Option String) : Except PyError Headers :=
  match envIndex env "AWS_BEARER_TOKEN_BEDROCK" with
  | Except.error e => Except.error e
  | Except.ok token =>
    let headers := hset baseJsonHeaders "Authorization" ("Bearer " ++ token)
    Except.ok (addGuardrailHeaders headers gi gv)

/-- The Llama prompt template of src/app/bedrock_client.py,
`LLAMA_PROMPT_TEMPLATE.format(message=message)`. -/
def llama_prompt_format (message : String) : String :=
  "<|begin_of_text|><|start_header_id|>user<|end_header_id|>\n\n" ++ message ++
  "<|eot_id|><|start_header_id|>assistant<|end_header_id|>\n\n"

/-- The Bedrock InvokeModel body dict built by `build_invoke_body`.
The float constants 0.7 and 0.9 are carried as the decimal literals
`json.dumps` prints for them. -/
structure InvokeBody where
  prompt : String
  max_gen_len : Nat
  temperature : String
  top_p : String
deriving DecidableEq

/-- src/app/bedrock_client.py `build_invoke_body`. -/
def build_invoke_body (message : String) : InvokeBody :=
  { prompt := llama_prompt_format message
    max_gen_len := 512
    temperature := "0.7"
    top_p := "0.9" }

/-- JSON string escaping for `json.dumps` (backslash and quote; the
further control-character and non-ASCII escapes do not matter to any
claim — only that serialization is a fixed deterministic function). -/
def jsonEscapeChar (c : Char) : String :=
  if c = '\\' then "\\\\"
  else if c = '\"' then "\\\""
  else String.singleton c

/-- A JSON string literal as `json.dumps` prints it. -/
def pyJsonString (s : String) : String :=
  "\"" ++ String.join (s.data.map jsonEscapeChar) ++ "\""

/-- `json.dumps(body).encode("utf-8")` for the InvokeModel body dict
(insertion order: prompt, max_gen_len, temperature, top_p). -/
def jsonDumpsInvokeBody (b : InvokeBody) : String :=
  "\x7b\"prompt\": " ++ pyJsonString b.prompt ++
  ", \"max_gen_len\": " ++ toString b.max_gen_len ++
  ", \"temperature\": " ++ b.temperature ++
  ", \"top_p\": " ++ b.top_p ++ "\x7d"

/-- The `AWSRequest` constructed at src/app/signing.py line 85 — the
object the SigV4 signature is computed over.  Its `data` field is the
exact byte serialization bound by the signature. -/
def signingAwsRequest (region model_id : String) (body : InvokeBody)
    (gi gv : Option String) : AWSRequest :=
  { method := "POST"
    url := get_bedrock_endpoint region model_id
    data := jsonDumpsInvokeBody body
    headers := addGuardrailHeaders baseJsonHeaders gi gv }

/-- src/app/signing.py `sign_bedrock_request`.  Reads the IAM
credentials (`os.environ[...]` raises `KeyError` when absent), builds
the request, hands it to the external signer, and returns
`(url, signed_headers, body_bytes)`. -/
def sign_bedrock_request (sigv4 : SigV4) (env : Env) (region model_id : String)
    (body : InvokeBody) (gi gv : Option String) :
    Except PyError (String × Headers × String) :=
  match envIndex env "AWS_ACCESS_KEY_ID" with
  | Except.error e => Except.error e
  | Except.ok access_key =>
    match envIndex env "AWS_SECRET_ACCESS_KEY" with
    | Except.error e => Except.error e
    | Except.ok secret_key =>
      let session_token := envGet env "AWS_SESSION_TOKEN"
      let credentials : Credentials :=
        { access_key := access_key, secret_key := secret_key, token := session_token }
      let aws_request := signingAwsRequest region model_id body gi gv
      let signed_headers := sigv4 credentials "bedrock" region aws_request
      Except.ok (aws_request.url, signed_headers, aws_request.data)

/-- Response classification of `invoke_bedrock_direct`
(src/app/bedrock_client.py lines 78-125), split out as the pure function
of the received response it is. -/
def classify_direct (model_id : String) (resp : HttpResponse) :
    Except PyError ChatResponse :=
  if resp.status_code = 400 then
    let error_msg :=
      match resp.jsonBody with
      | some error_body => error_body.message.getD resp.text
      | none => resp.text
    Except.ok
      { response := "[BLOCKED by Bedrock Guardrail] " ++ error_msg
        mode := ChatMode.direct
        model := model_id
        blocked := true
        blocked_by := BlockedBy.bedrock_guardrail }
  else if resp.status_code ≠ 200 then
    Except.ok
      { response := "[ERROR] Bedrock returned " ++ toString resp.status_code ++ ": " ++ resp.text
        mode := ChatMode.direct
        model := model_id }
  else
    match resp.jsonBody with
    | none => Except.error PyError.jsonError
    | some resp_json =>
      let generation := resp_json.generation.getD ""
      let guardrail_action := resp.headers "x-amzn-bedrock-guardrail-action"
      if guardrail_action = some "INTERVENED" then
        Except.ok
          { response := "[BLOCKED by Bedrock Guardrail] " ++ generation
            mode := ChatMode.direct
            model := model_id
            blocked := true
            blocked_by := BlockedBy.bedrock_guardrail }
      else
        Except.ok
          { response := generation
            mode := ChatMode.direct
            model := model_id
            blocked := false
            blocked_by := BlockedBy.none }

/-- src/app/bedrock_client.py `invoke_bedrock_direct`: auth-material
construction, the single POST, then classification.  The `httpx` call is
not wrapped in any handler, so a transport failure propagates as an
exception (`Except.error`). -/
def invoke_bedrock_direct (sigv4 : SigV4) (net : Net) (env : Env)
    (message model_id : String) (gi gv : Option String) :
    Except PyError ChatResponse :=
  let region := envGetD env "AWS_REGION" "us-east-1"
  let body := build_invoke_body message
  let url := get_bedrock_endpoint region model_id
  let auth : Except PyError (String × Headers × String) :=
    if uses_bearer_token env then
      match build_bearer_headers env gi gv with
      | Except.error e => Except.error e
      | Except.ok headers => Except.ok (url, headers, jsonDumpsInvokeBody body)
    else
      sign_bedrock_request sigv4 env region model_id body gi gv
  match auth with
  | Except.error e => Except.error e
  | Except.ok (url2, headers, body_bytes) =>
    match net url2 headers body_bytes with
    | TransportResult.failure e => Except.error (PyError.transportExn e)
    | TransportResult.success resp => classify_direct model_id resp

/-- src/app/ethicalzen_proxy_client.py `_get_proxy_url`:
`base.rstrip('/')` followed by the fixed sub-path. -/
def get_proxy_url (env : Env) : String :=
  let base := envGetD env "ETHICALZEN_PROXY_URL" "https://gateway.ethicalzen.ai"
  String.mk ((base.data.reverse.dropWhile (fun c => c = '/')).reverse) ++ "/api/proxy"

/-- The fixed forwarding allowlist `forward_keys` of
src/app/ethicalzen_proxy_client.py lines 86-90. -/
def forward_keys : List String :=
  ["Authorization", "X-Amz-Date", "X-Amz-Security-Token",
   "X-Amz-Content-Sha256", "X-Amzn-Bedrock-GuardrailIdentifier",
   "X-Amzn-Bedrock-GuardrailVersion"]

/-- The forwarding loop of src/app/ethicalzen_proxy_client.py lines
91-93: `for key in forward_keys: if key in auth_headers:
proxy_headers[key] = auth_headers[key]`. -/
def forwardAuthHeaders (proxy_headers auth_headers : Headers) :
    List String → Headers
  | [] => proxy_headers
  | key :: rest =>
    match auth_headers key with
    | some v => forwardAuthHeaders (hset proxy_headers key v) auth_headers rest
    | none => forwardAuthHeaders proxy_headers auth_headers rest

/-- The gateway header set of src/app/ethicalzen_proxy_client.py lines
75-93: the five identity headers, the target-endpoint header, the
Content-Type header, then the forwarded allowlisted auth headers. -/
def buildProxyHeaders (api_key dc_id dc_digest dc_suite target_url tenant_id : String)
    (auth_headers : Headers) : Headers :=
  let proxy_headers :=
    hset (hset (hset (hset (hset (hset (hset emptyHeaders
      "X-API-Key" api_key)
      "X-DC-Id" dc_id)
      "X-DC-Digest" dc_digest)
      "X-DC-Suite" dc_suite)
      "X-Target-Endpoint" target_url)
      "X-Tenant-ID" tenant_id)
      "Content-Type" "application/json"
  forwardAuthHeaders proxy_headers auth_headers forward_keys

/-- Python `str.upper()` (character-wise uppercasing; identical to the
source's behaviour on the ASCII header values compared here). -/
def pyUpper (s : String) : String :=
  String.mk (s.data.map Char.toUpper)

/-- The gateway-block test of src/app/ethicalzen_proxy_client.py line
119: `acvps_status and acvps_status.upper() in ("BLOCKED", "REJECTED",
"DENIED")` (Python truthiness: `None` and the empty string fail the
first conjunct). -/
def isGatewayBlock (acvps_status : Option String) : Bool :=
  match acvps_status with
  | some s =>
    s != "" && (pyUpper s == "BLOCKED" || pyUpper s == "REJECTED" || pyUpper s == "DENIED")
  | none => false

/-- Strip leading and trailing whitespace, as `float()` does before
parsing. -/
def pyStrip (l : List Char) : List Char :=
  ((l.dropWhile Char.isWhitespace).reverse.dropWhile Char.isWhitespace).reverse

/-- Continue a digit group after its first digit: further digits, with
underscores allowed only between two digits (CPython's numeric-literal
underscore rule).  Returns the unconsumed remainder, or `none` on a
misplaced underscore. -/
def pyDigitsRest : List Char → Option (List Char)
  | [] => some []
  | c :: rest =>
    if c.isDigit then pyDigitsRest rest
    else if c = '_' then
      match rest with
      | d :: rest2 => if d.isDigit then pyDigitsRest rest2 else none
      | [] => none
    else some (c :: rest)

/-- Consume `digit (digit | "_" digit)*`; `none` when the input does not
start with a digit or an underscore is misplaced. -/
def pyDigits : List Char → Option (List Char)
  | c :: rest => if c.isDigit then pyDigitsRest rest else none
  | [] => none

/-- Accept the remainder after a mantissa: empty, or an exponent part
`("e" | "E") sign? digits`. -/
def pyExponent : List Char → Bool
  | [] => true
  | c :: rest =>
    if c = 'e' ∨ c = 'E' then
      let rest2 :=
        match rest with
        | s :: r2 => if s = '+' ∨ s = '-' then r2 else rest
        | [] => rest
      match pyDigits rest2 with
      | some [] => true
      | _ => false
    else false

/-- Accept an unsigned float mantissa with optional exponent:
`digits ["." digits?] [exp]` or `"." digits [exp]`. -/
def pyFloatBody (l : List Char) : Bool :=
  match l with
  | '.' :: rest =>
    match pyDigits rest with
    | some rest2 => pyExponent rest2
    | none => false
  | _ =>
    match pyDigits l with
    | some rest =>
      match rest with
      | '.' :: rest2 =>
        (match pyDigits rest2 with
         | some rest3 => pyExponent rest3
         | none => pyExponent rest2)
      | _ => pyExponent rest
    | none => false

/-- Whether CPython's `float()` accepts the string: stripped, optionally
signed float literal, or (case-insensitively) `inf`, `infinity` or
`nan`. -/
def isPyFloatString (s : String) : Bool :=
  let l := pyStrip s.data
  let l2 :=
    match l with
    | c :: rest => if c = '+' ∨ c = '-' then rest else l
    | [] => l
  let low := l2.map Char.toLower
  if low = ['i', 'n', 'f'] ∨ low = ['i', 'n', 'f', 'i', 'n', 'i', 't', 'y'] ∨
      low = ['n', 'a', 'n'] then
    true
  else
    pyFloatBody l2

/-- `float(validation_ms_raw) if validation_ms_raw else None`
(src/app/ethicalzen_proxy_client.py line 107): `None` and the empty
string (both falsy) give `None`; any other header value is handed to
`float()`, which raises `ValueError` when the string is not a float
literal.  The successfully parsed value is carried as the raw string
(`float(s)` is determined by `s`; the `Float` type itself stays outside
the embedding). -/
def parse_validation_ms (raw : Option String) : Except PyError (Option String) :=
  match raw with
  | some s =>
    if s = "" then Except.ok none
    else if isPyFloatString s then Except.ok (some s)
    else Except.error (PyError.valueError
      ("could not convert string to float: \x27" ++ s ++ "\x27"))
  | none => Except.ok none

/-- Response classification of `invoke_via_proxy`
(src/app/ethicalzen_proxy_client.py lines 103-197), split out as the
pure function of the received response it is. -/
def classify_proxy (model_id : String) (resp : HttpResponse) :
    Except PyError ChatResponse :=
  let acvps_status := resp.headers "X-ACVPS-Status"
  let trace_id := resp.headers "X-ACVPS-Trace-ID"
  match parse_validation_ms (resp.headers "X-ACVPS-Validation-Ms") with
  | Except.error e => Except.error e
  | Except.ok validation_ms =>
  if isGatewayBlock acvps_status then
    let error_msg :=
      match resp.jsonBody with
      | some error_body => error_body.error.getD (error_body.message.getD resp.text)
      | none => resp.text
    Except.ok
      { response := "[BLOCKED by EthicalZen] " ++ error_msg
        mode := ChatMode.mode_a
        model := model_id
        blocked := true
        blocked_by := BlockedBy.ethicalzen_guardrail
        trace_id := trace_id
        ethicalzen_status := acvps_status
        validation_ms := validation_ms }
  else if resp.status_code = 400 then
    let error_msg :=
      match resp.jsonBody with
      | some error_body => error_body.message.getD resp.text
      | none => resp.text
    Except.ok
      { response := "[BLOCKED by Bedrock Guardrail] " ++ error_msg
        mode := ChatMode.mode_a
        model := model_id
        blocked := true
        blocked_by := BlockedBy.bedrock_guardrail
        trace_id := trace_id
        ethicalzen_status := acvps_status
        validation_ms := validation_ms }
  else if resp.status_code ≠ 200 then
    Except.ok
      { response := "[ERROR] Proxy returned " ++ toString resp.status_code ++ ": " ++ resp.text
        mode := ChatMode.mode_a
        model := model_id
        trace_id := trace_id
        ethicalzen_status := acvps_status
        validation_ms := validation_ms }
  else
    match resp.jsonBody with
    | none => Except.error PyError.jsonError
    | some resp_json =>
      let generation := resp_json.generation.getD ""
      let guardrail_action := resp.headers "x-amzn-bedrock-guardrail-action"
      if guardrail_action = some "INTERVENED" then
        Except.ok
          { response := "[BLOCKED by Bedrock Guardrail] " ++ generation
            mode := ChatMode.mode_a
            model := model_id
            blocked := true
            blocked_by := BlockedBy.bedrock_guardrail
            trace_id := trace_id
            ethicalzen_status := acvps_status
            validation_ms := validation_ms }
      else
        Except.ok
          { response := generation
            mode := ChatMode.mode_a
            model := model_id
            blocked := false
            blocked_by := BlockedBy.none
            trace_id := trace_id
            ethicalzen_status := acvps_status
            validation_ms := validation_ms }

/-- src/app/ethicalzen_proxy_client.py `invoke_via_proxy`: gateway
identity from the environment (`os.environ[...]` raises on the two
required keys), the shared payload/auth stage, the gateway header set,
the single POST, then classification.  As in the direct invoker, the
`httpx` call is not wrapped, so a transport failure propagates. -/
def invoke_via_proxy (sigv4 : SigV4) (net : Net) (env : Env)
    (message model_id : String) (gi gv : Option String) :
    Except PyError ChatResponse :=
  let region := envGetD env "AWS_REGION" "us-east-1"
  match envIndex env "ETHICALZEN_API_KEY" with
  | Except.error e => Except.error e
  | Except.ok api_key =>
    match envIndex env "ETHICALZEN_DC_ID" with
    | Except.error e => Except.error e
    | Except.ok dc_id =>
      let dc_digest := envGetD env "ETHICALZEN_DC_DIGEST" ""
      let dc_suite := envGetD env "ETHICALZEN_DC_SUITE" "bedrock-guardrail-complement"
      let tenant_id := envGetD env "ETHICALZEN_TENANT_ID" "default"
      let body := build_invoke_body message
      let target_url := get_bedrock_endpoint region model_id
      let auth : Except PyError (Headers × String) :=
        if uses_bearer_token env then
          match build_bearer_headers env gi gv with
          | Except.error e => Except.error e
          | Except.ok h => Except.ok (h, jsonDumpsInvokeBody body)
        else
          match sign_bedrock_request sigv4 env region model_id body gi gv with
          | Except.error e => Except.error e
          | Except.ok (_, h, bb) => Except.ok (h, bb)
      match auth with
      | Except.error e => Except.error e
      | Except.ok (auth_headers, body_bytes) =>
        let proxy_headers :=
          buildProxyHeaders api_key dc_id dc_digest dc_suite target_url tenant_id auth_headers
        let proxy_url := get_proxy_url env
        match net proxy_url proxy_headers body_bytes with
        | TransportResult.failure e => Except.error (PyError.transportExn e)
        | TransportResult.success resp => classify_proxy model_id resp

/-- The outcome of the `/chat` route handler: the verdict serialized
back, or an `HTTPException` with status and detail. -/
inductive ApiResult where
  | ok (r : ChatResponse)
  | httpError (status : Nat) (detail : String)
deriving DecidableEq

/-- `str(exc)` for the modelled exceptions (`str(KeyError(k))` prints
the key quoted). -/
def pyErrorStr : PyError → String
  | PyError.keyError k => "\x27" ++ k ++ "\x27"
  | PyError.jsonError => "json decode error"
  | PyError.valueError msg => msg
  | PyError.transportExn msg => msg

/-- src/app/main.py `chat` (lines 89-130): dispatch on the mode, map a
`KeyError` to HTTP 500 "Missing required environment variable", and any
other exception to HTTP 500 with its text.  (The unknown-mode branch is
unreachable here because `ChatMode` has exactly the two values pydantic
admits; the logging call has no effect on the returned value.) -/
def chat (sigv4 : SigV4) (net : Net) (env : Env) (req : ChatRequest) : ApiResult :=
  let result :=
    match req.mode with
    | ChatMode.direct =>
      invoke_bedrock_direct sigv4 net env req.message req.model_id
        req.guardrail_identifier req.guardrail_version
    | ChatMode.mode_a =>
      invoke_via_proxy sigv4 net env req.message req.model_id
        req.guardrail_identifier req.guardrail_version
  match result with
  | Except.ok r => ApiResult.ok r
  | Except.error (PyError.keyError k) =>
    ApiResult.httpError 500
      ("Missing required environment variable: " ++ pyErrorStr (PyError.keyError k))
  | Except.error e => ApiResult.httpError 500 (pyErrorStr e)

/-- A network that always fails with the given transport exception
(connection error / timeout). -/
def failNet (e : String) : Net := fun _ _ _ => TransportResult.failure e

/-- A network that always delivers the given response. -/
def constNet (resp : HttpResponse) : Net := fun _ _ _ => TransportResult.success resp

/-- `Except.isOk` shorthand used by the counterexample statements. -/
def exceptIsOk {ε α : Type} : Except ε α → Bool
  | Except.ok _ => true
  | Except.error _ => false

/-- Concrete SigV4 signer used by witnesses: adds an Authorization
header to the request's own headers. -/
def wSig : SigV4 := fun _ _ _ req => hset req.headers "Authorization" "AWS4-HMAC-SHA256 test"

/-- Concrete bearer-token environment used by witnesses. -/
def wEnvBearer : Env :=
  ⟨fun k =>
    if k = "AWS_BEARER_TOKEN_BEDROCK" then some "tok"
    else if k = "ETHICALZEN_API_KEY" then some "key"
    else if k = "ETHICALZEN_DC_ID" then some "dc1"
    else none⟩

/-- Concrete plain 200 response used by witnesses. -/
def wResp200 : HttpResponse :=
  { status_code := 200
    headers := fun _ => none
    text := ""
    jsonBody := some { generation := some "Neural networks..." } }

/-- Concrete empty environment used by witnesses. -/
def wEnvEmpty : Env := ⟨fun _ => none⟩

/-- Concrete signing-mode environment used by witnesses. -/
def wEnvSign : Env :=
  ⟨fun k =>
    if k = "AWS_ACCESS_KEY_ID" then some "AK"
    else if k = "AWS_SECRET_ACCESS_KEY" then some "SK"
    else if k = "ETHICALZEN_API_KEY" then some "key"
    else if k = "ETHICALZEN_DC_ID" then some "dc1"
    else none⟩

/-- Concrete HTTP-400 guardrail-rejection response used by witnesses. -/
def wResp400 : HttpResponse :=
  { status_code := 400
    headers := fun _ => none
    text := "raw400"
    jsonBody := some { message := some "violates usage policy" } }

theorem classify_direct_ok_shape (model_id : String) (resp : HttpResponse)
    (r : ChatResponse) (h : classify_direct model_id resp = Except.ok r) :
    (r.blocked = true ↔ r.blocked_by ≠ BlockedBy.none) ∧
    r.trace_id = none ∧ r.ethicalzen_status = none ∧ r.validation_ms = none := by
  simp only [classify_direct] at h
  split at h
  · injection h with h
    subst h
    exact ⟨by simp, rfl, rfl, rfl⟩
  · split at h
    · injection h with h
      subst h
      exact ⟨by simp, rfl, rfl, rfl⟩
    · split at h
      · exact absurd h (by simp)
      · split at h
        · injection h with h
          subst h
          exact ⟨by simp, rfl, rfl, rfl⟩
        · injection h with h
          subst h
          exact ⟨by simp, rfl, rfl, rfl⟩

theorem classify_proxy_ok_blocked_iff (model_id : String) (resp : HttpResponse)
    (r : ChatResponse) (h : classify_proxy model_id resp = Except.ok r) :
    r.blocked = true ↔ r.blocked_by ≠ BlockedBy.none := by
  simp only [classify_proxy] at h
  split at h
  · exact absurd h (by simp)
  · split at h
    · injection h with h
      subst h
      simp
    · split at h
      · injection h with h
        subst h
        simp
      · split at h
        · injection h with h
          subst h
          simp
        · split at h
          · exact absurd h (by simp)
          · split at h
            · injection h with h
              subst h
              simp
            · injection h with h
              subst h
              simp

theorem invoke_direct_ok_exists (sigv4 : SigV4) (net : Net) (env : Env)
    (message model_id : String) (gi gv : Option String) (r : ChatResponse)
    (h : invoke_bedrock_direct sigv4 net env message model_id gi gv = Except.ok r) :
    ∃ resp, classify_direct model_id resp = Except.ok r := by
  simp only [invoke_bedrock_direct] at h
  split at h
  · exact absurd h (by simp)
  · split at h
    · exact absurd h (by simp)
    · exact ⟨_, h⟩

theorem invoke_proxy_ok_exists (sigv4 : SigV4) (net : Net) (env : Env)
    (message model_id : String) (gi gv : Option String) (r : ChatResponse)
    (h : invoke_via_proxy sigv4 net env message model_id gi gv = Except.ok r) :
    ∃ resp, classify_proxy model_id resp = Except.ok r := by
  simp only [invoke_via_proxy] at h
  split at h
  · exact absurd h (by simp)
  · split at h
    · exact absurd h (by simp)
    · split at h
      · exact absurd h (by simp)
      · split at h
        · exact absurd h (by simp)
        · exact ⟨_, h⟩

/-- C1: every verdict produced by either invoker satisfies
`blocked = true ↔ blocked_by ≠ none` — the blocked flag is set exactly
when the block attribution is not `none` (so in particular every
transport-error verdict, which carries `blocked = false`, also carries
`blocked_by = none`). -/
theorem c1_blocked_iff_attribution (sigv4 : SigV4) (net : Net) (env : Env)
    (message model_id : String) (gi gv : Option String) (r : ChatResponse)
    (h : invoke_bedrock_direct sigv4 net env message model_id gi gv = Except.ok r ∨
         invoke_via_proxy sigv4 net env message model_id gi gv = Except.ok r) :
    r.blocked = true ↔ r.blocked_by ≠ BlockedBy.none := by
  rcases h with h | h
  · obtain ⟨resp, hc⟩ := invoke_direct_ok_exists sigv4 net env message model_id gi gv r h
    exact (classify_direct_ok_shape model_id resp r hc).1
  · obtain ⟨resp, hc⟩ := invoke_proxy_ok_exists sigv4 net env message model_id gi gv r h
    exact classify_proxy_ok_blocked_iff model_id resp r hc

/-- Witness for C1 at a concrete passing direct invocation. -/
theorem c1_blocked_iff_attribution_witness :
    ({ response := "Neural networks...", mode := ChatMode.direct, model := "m",
       blocked := false, blocked_by := BlockedBy.none, trace_id := none,
       ethicalzen_status := none, validation_ms := none : ChatResponse }.blocked = true ↔
     { response := "Neural networks...", mode := ChatMode.direct, model := "m",
       blocked := false, blocked_by := BlockedBy.none, trace_id := none,
       ethicalzen_status := none, validation_ms := none : ChatResponse }.blocked_by ≠
       BlockedBy.none) :=
  c1_blocked_iff_attribution wSig (constNet wResp200) wEnvBearer "hi" "m" none none
    { response := "Neural networks...", mode := ChatMode.direct, model := "m",
      blocked := false, blocked_by := BlockedBy.none, trace_id := none,
      ethicalzen_status := none, validation_ms := none }
    (Or.inl rfl)

/-- C10: a verdict produced by the direct invoker never carries the
gateway-specific fields — `trace_id`, `ethicalzen_status` and
`validation_ms` are `none` on every branch. -/
theorem c10_direct_gateway_fields_none (sigv4 : SigV4) (net : Net) (env : Env)
    (message model_id : String) (gi gv : Option String) (r : ChatResponse)
    (h : invoke_bedrock_direct sigv4 net env message model_id gi gv = Except.ok r) :
    r.trace_id = none ∧ r.ethicalzen_status = none ∧ r.validation_ms = none := by
  obtain ⟨resp, hc⟩ := invoke_direct_ok_exists sigv4 net env message model_id gi gv r h
  exact (classify_direct_ok_shape model_id resp r hc).2

/-- Witness for C10 at a concrete direct invocation. -/
theorem c10_direct_gateway_fields_none_witness :
    ({ response := "Neural networks...", mode := ChatMode.direct, model := "m2",
       blocked := false, blocked_by := BlockedBy.none, trace_id := none,
       ethicalzen_status := none, validation_ms := none : ChatResponse }.trace_id = none ∧
     { response := "Neural networks...", mode := ChatMode.direct, model := "m2",
       blocked := false, blocked_by := BlockedBy.none, trace_id := none,
       ethicalzen_status := none, validation_ms := none : ChatResponse }.ethicalzen_status = none ∧
     { response := "Neural networks...", mode := ChatMode.direct, model := "m2",
       blocked := false, blocked_by := BlockedBy.none, trace_id := none,
       ethicalzen_status := none, validation_ms := none : ChatResponse }.validation_ms = none) :=
  c10_direct_gateway_fields_none wSig (constNet wResp200) wEnvBearer "hi" "m2" none none
    { response := "Neural networks...", mode := ChatMode.direct, model := "m2",
      blocked := false, blocked_by := BlockedBy.none, trace_id := none,
      ethicalzen_status := none, validation_ms := none }
    rfl

/-- C5: an HTTP-400 response classifies (on the direct path, and on the
gateway path when no gateway-block header fired and the
validation-duration header parses) as blocked by the first-layer
guardrail; the message comes from the JSON `message` field and degrades
to the raw body text when the body cannot be parsed, and in every case
the function returns a verdict — no JSON-parsing exception escapes. -/
theorem c5_http400_first_layer (model_id : String) (resp_d resp_p : HttpResponse)
    (vm : Option String)
    (h400d : resp_d.status_code = 400)
    (h400p : resp_p.status_code = 400)
    (hgw : isGatewayBlock (resp_p.headers "X-ACVPS-Status") = false)
    (hvm : parse_validation_ms (resp_p.headers "X-ACVPS-Validation-Ms") = Except.ok vm) :
    classify_direct model_id resp_d = Except.ok
      { response := "[BLOCKED by Bedrock Guardrail] " ++
          (match resp_d.jsonBody with
           | some error_body => error_body.message.getD resp_d.text
           | none => resp_d.text)
        mode := ChatMode.direct
        model := model_id
        blocked := true
        blocked_by := BlockedBy.bedrock_guardrail
        trace_id := none
        ethicalzen_status := none
        validation_ms := none } ∧
    classify_proxy model_id resp_p = Except.ok
      { response := "[BLOCKED by Bedrock Guardrail] " ++
          (match resp_p.jsonBody with
           | some error_body => error_body.message.getD resp_p.text
           | none => resp_p.text)
        mode := ChatMode.mode_a
        model := model_id
        blocked := true
        blocked_by := BlockedBy.bedrock_guardrail
        trace_id := resp_p.headers "X-ACVPS-Trace-ID"
        ethicalzen_status := resp_p.headers "X-ACVPS-Status"
        validation_ms := vm } := by
  constructor
  · simp [classify_direct, h400d]
  · simp [classify_proxy, hvm, hgw, h400p]

/-- Witness for C5 at a concrete 400 response with a JSON `message`. -/
theorem c5_http400_first_layer_witness :
    classify_direct "m" wResp400 = Except.ok
      { response := "[BLOCKED by Bedrock Guardrail] violates usage policy"
        mode := ChatMode.direct
        model := "m"
        blocked := true
        blocked_by := BlockedBy.bedrock_guardrail
        trace_id := none
        ethicalzen_status := none
        validation_ms := none } ∧
    classify_proxy "m" wResp400 = Except.ok
      { response := "[BLOCKED by Bedrock Guardrail] violates usage policy"
        mode := ChatMode.mode_a
        model := "m"
        blocked := true
        blocked_by := BlockedBy.bedrock_guardrail
        trace_id := none
        ethicalzen_status := none
        validation_ms := none } :=
  c5_http400_first_layer "m" wResp400 wResp400 none rfl rfl rfl rfl

theorem forwardAuthHeaders_lookup (auth : Headers) (ks : List String) (base : Headers)
    (k : String) :
    forwardAuthHeaders base auth ks k =
      if k ∈ ks ∧ (auth k).isSome then auth k else base k := by
  induction ks generalizing base with
  | nil => simp [forwardAuthHeaders]
  | cons key rest ih =>
    by_cases hk : k = key
    · subst hk
      cases hav : auth k with
      | some v =>
        simp only [forwardAuthHeaders, hav]
        rw [ih]
        by_cases hr : k ∈ rest <;> simp [hr, hav, hset]
      | none =>
        simp only [forwardAuthHeaders, hav]
        rw [ih]
        simp [hav]
    · cases hav : auth key with
      | some v =>
        simp only [forwardAuthHeaders, hav]
        rw [ih]
        by_cases hr : k ∈ rest <;> simp [hr, hav, hset, hk]
      | none =>
        simp only [forwardAuthHeaders, hav]
        rw [ih]
        simp [hk]

/-- C9: the gateway header set consists of the five identity headers,
the target-endpoint header, the Content-Type header, and exactly those
allowlisted auth headers (`forward_keys` = Authorization, X-Amz-Date,
X-Amz-Security-Token, X-Amz-Content-Sha256, guardrail identifier,
guardrail version) that are present in the produced auth headers,
forwarded with unchanged values; every other lookup is empty. -/
theorem c9_gateway_header_set (api_key dc_id dc_digest dc_suite target_url tenant_id : String)
    (auth_headers : Headers) (k : String) :
    buildProxyHeaders api_key dc_id dc_digest dc_suite target_url tenant_id auth_headers k =
      if k ∈ forward_keys ∧ (auth_headers k).isSome then auth_headers k
      else if k = "Content-Type" then some "application/json"
      else if k = "X-Tenant-ID" then some tenant_id
      else if k = "X-Target-Endpoint" then some target_url
      else if k = "X-DC-Suite" then some dc_suite
      else if k = "X-DC-Digest" then some dc_digest
      else if k = "X-DC-Id" then some dc_id
      else if k = "X-API-Key" then some api_key
      else none := by
  simp only [buildProxyHeaders]
  rw [forwardAuthHeaders_lookup]
  by_cases h : k ∈ forward_keys ∧ (auth_headers k).isSome
  · simp [h]
  · simp [h, hset, emptyHeaders]

/-- C4: the bearer-token strategy is selected exactly when the
bearer-token secret is present and non-empty; when the request-signing
strategy is selected and the access key or the secret key is absent, the
direct invoker fails with the missing-configuration error
(Python `KeyError` on the credential variable) at signing time — the
result is this error for every possible network, i.e. before any network
call can occur. -/
theorem c4_credential_strategy (sigv4 : SigV4) (net : Net) (selEnv env : Env)
    (message model_id : String) (gi gv : Option String)
    (hsign : uses_bearer_token env = false)
    (hmiss : envGet env "AWS_ACCESS_KEY_ID" = none ∨
             envGet env "AWS_SECRET_ACCESS_KEY" = none) :
    (uses_bearer_token selEnv = true ↔
      (envGet selEnv "AWS_BEARER_TOKEN_BEDROCK").getD "" ≠ "") ∧
    (invoke_bedrock_direct sigv4 net env message model_id gi gv =
        Except.error (PyError.keyError "AWS_ACCESS_KEY_ID") ∨
     invoke_bedrock_direct sigv4 net env message model_id gi gv =
        Except.error (PyError.keyError "AWS_SECRET_ACCESS_KEY")) := by
  constructor
  · cases hb : envGet selEnv "AWS_BEARER_TOKEN_BEDROCK" with
    | none => simp [uses_bearer_token, hb]
    | some s => simp [uses_bearer_token, hb]
  · cases hv : envGet env "AWS_ACCESS_KEY_ID" with
    | none =>
      exact Or.inl (by simp [invoke_bedrock_direct, hsign, sign_bedrock_request, envIndex, hv])
    | some ak =>
      rcases hmiss with hak | hsk
      · rw [hv] at hak
        exact absurd hak (by simp)
      · exact Or.inr
          (by simp [invoke_bedrock_direct, hsign, sign_bedrock_request, envIndex, hv, hsk])

/-- Witness for C4: bearer selection on a configured environment, and
the missing-credential failure on an empty environment. -/
theorem c4_credential_strategy_witness :
    (uses_bearer_token wEnvBearer = true ↔
      (envGet wEnvBearer "AWS_BEARER_TOKEN_BEDROCK").getD "" ≠ "") ∧
    (invoke_bedrock_direct wSig (failNet "timeout") wEnvEmpty "hi" "m" none none =
        Except.error (PyError.keyError "AWS_ACCESS_KEY_ID") ∨
     invoke_bedrock_direct wSig (failNet "timeout") wEnvEmpty "hi" "m" none none =
        Except.error (PyError.keyError "AWS_SECRET_ACCESS_KEY")) :=
  c4_credential_strategy wSig (failNet "timeout") wEnvBearer wEnvEmpty "hi" "m" none none
    rfl (Or.inl rfl)

/-- C8: in signing mode the body bytes the signature is computed over —
the `data` field of the `AWSRequest` handed to the signer — are exactly
the bytes `sign_bedrock_request` returns, which are the single JSON
serialization of the invoke body; and both invokers hand exactly those
returned bytes to the network call, with no re-serialization in
between. -/
theorem c8_signed_bytes_transmitted (sigv4 : SigV4) (net : Net) (env : Env)
    (message model_id region ak sk api_key dc_id : String) (gi gv : Option String)
    (hregion : region = envGetD env "AWS_REGION" "us-east-1")
    (hbear : uses_bearer_token env = false)
    (hak : envGet env "AWS_ACCESS_KEY_ID" = some ak)
    (hsk : envGet env "AWS_SECRET_ACCESS_KEY" = some sk)
    (hapi : envGet env "ETHICALZEN_API_KEY" = some api_key)
    (hdc : envGet env "ETHICALZEN_DC_ID" = some dc_id) :
    sign_bedrock_request sigv4 env region model_id (build_invoke_body message) gi gv =
      Except.ok
        (get_bedrock_endpoint region model_id,
         sigv4 { access_key := ak, secret_key := sk, token := envGet env "AWS_SESSION_TOKEN" }
           "bedrock" region (signingAwsRequest region model_id (build_invoke_body message) gi gv),
         (signingAwsRequest region model_id (build_invoke_body message) gi gv).data) ∧
    (signingAwsRequest region model_id (build_invoke_body message) gi gv).data =
      jsonDumpsInvokeBody (build_invoke_body message) ∧
    invoke_bedrock_direct sigv4 net env message model_id gi gv =
      (match net (get_bedrock_endpoint region model_id)
          (sigv4 { access_key := ak, secret_key := sk, token := envGet env "AWS_SESSION_TOKEN" }
            "bedrock" region (signingAwsRequest region model_id (build_invoke_body message) gi gv))
          ((signingAwsRequest region model_id (build_invoke_body message) gi gv).data) with
       | TransportResult.failure e => Except.error (PyError.transportExn e)
       | TransportResult.success resp => classify_direct model_id resp) ∧
    invoke_via_proxy sigv4 net env message model_id gi gv =
      (match net (get_proxy_url env)
          (buildProxyHeaders api_key dc_id (envGetD env "ETHICALZEN_DC_DIGEST" "")
            (envGetD env "ETHICALZEN_DC_SUITE" "bedrock-guardrail-complement")
            (get_bedrock_endpoint region model_id)
            (envGetD env "ETHICALZEN_TENANT_ID" "default")
            (sigv4 { access_key := ak, secret_key := sk, token := envGet env "AWS_SESSION_TOKEN" }
              "bedrock" region (signingAwsRequest region model_id (build_invoke_body message) gi gv)))
          ((signingAwsRequest region model_id (build_invoke_body message) gi gv).data) with
       | TransportResult.failure e => Except.error (PyError.transportExn e)
       | TransportResult.success resp => classify_proxy model_id resp) := by
  subst hregion
  refine ⟨?_, rfl, ?_, ?_⟩
  · simp [sign_bedrock_request, envIndex, hak, hsk, signingAwsRequest]
  · simp [invoke_bedrock_direct, hbear, sign_bedrock_request, envIndex, hak, hsk,
      signingAwsRequest]
  · simp [invoke_via_proxy, hbear, sign_bedrock_request, envIndex, hak, hsk, hapi, hdc,
      signingAwsRequest]

/-- Witness for C8 at a concrete signing-mode environment. -/
theorem c8_signed_bytes_transmitted_witness :
    sign_bedrock_request wSig wEnvSign "us-east-1" "m" (build_invoke_body "hi") none none =
      Except.ok
        (get_bedrock_endpoint "us-east-1" "m",
         wSig { access_key := "AK", secret_key := "SK",
                token := envGet wEnvSign "AWS_SESSION_TOKEN" }
           "bedrock" "us-east-1" (signingAwsRequest "us-east-1" "m" (build_invoke_body "hi") none none),
         (signingAwsRequest "us-east-1" "m" (build_invoke_body "hi") none none).data) ∧
    (signingAwsRequest "us-east-1" "m" (build_invoke_body "hi") none none).data =
      jsonDumpsInvokeBody (build_invoke_body "hi") ∧
    invoke_bedrock_direct wSig (failNet "x") wEnvSign "hi" "m" none none =
      (match (failNet "x") (get_bedrock_endpoint "us-east-1" "m")
          (wSig { access_key := "AK", secret_key := "SK",
                  token := envGet wEnvSign "AWS_SESSION_TOKEN" }
            "bedrock" "us-east-1" (signingAwsRequest "us-east-1" "m" (build_invoke_body "hi") none none))
          ((signingAwsRequest "us-east-1" "m" (build_invoke_body "hi") none none).data) with
       | TransportResult.failure e => Except.error (PyError.transportExn e)
       | TransportResult.success resp => classify_direct "m" resp) ∧
    invoke_via_proxy wSig (failNet "x") wEnvSign "hi" "m" none none =
      (match (failNet "x") (get_proxy_url wEnvSign)
          (buildProxyHeaders "key" "dc1" (envGetD wEnvSign "ETHICALZEN_DC_DIGEST" "")
            (envGetD wEnvSign "ETHICALZEN_DC_SUITE" "bedrock-guardrail-complement")
            (get_bedrock_endpoint "us-east-1" "m")
            (envGetD wEnvSign "ETHICALZEN_TENANT_ID" "default")
            (wSig { access_key := "AK", secret_key := "SK",
                    token := envGet wEnvSign "AWS_SESSION_TOKEN" }
              "bedrock" "us-east-1" (signingAwsRequest "us-east-1" "m" (build_invoke_body "hi") none none)))
          ((signingAwsRequest "us-east-1" "m" (build_invoke_body "hi") none none).data) with
       | TransportResult.failure e => Except.error (PyError.transportExn e)
       | TransportResult.success resp => classify_proxy "m" resp) :=
  c8_signed_bytes_transmitted wSig (failNet "x") wEnvSign "hi" "m" "us-east-1"
    "AK" "SK" "key" "dc1" none none rfl rfl rfl rfl rfl rfl

/-- Counterexample to C3: at a concrete, fully configured bearer-token
environment, when the network call fails (connection error / timeout),
neither invoker returns any verdict — the transport exception propagates
out of the invoker instead of being classified as a transport-error
verdict. -/
theorem c3_counterexample_transport_failure_raises :
    invoke_bedrock_direct wSig (failNet "connection timed out") wEnvBearer "hi" "m" none none =
      Except.error (PyError.transportExn "connection timed out") ∧
    exceptIsOk
      (invoke_bedrock_direct wSig (failNet "connection timed out") wEnvBearer "hi" "m" none none) =
      false ∧
    invoke_via_proxy wSig (failNet "connection timed out") wEnvBearer "hi" "m" none none =
      Except.error (PyError.transportExn "connection timed out") ∧
    exceptIsOk
      (invoke_via_proxy wSig (failNet "connection timed out") wEnvBearer "hi" "m" none none) =
      false :=
  ⟨rfl, rfl, rfl, rfl⟩

/-- C3 amended: when the network call fails with a connection error or
timeout, the invoker does not produce a transport-error verdict; the
exception propagates to the `/chat` handler, which converts it to an
HTTP 500 response carrying the exception text.  (Transport-error
verdicts arise only from completed responses with unexpected HTTP
status.) -/
theorem c3_amended_transport_failure_raises (sigv4 : SigV4) (env : Env)
    (message model_id tok api_key dc_id e : String) (gi gv : Option String)
    (hbt : envGet env "AWS_BEARER_TOKEN_BEDROCK" = some tok)
    (htok : tok ≠ "")
    (hapi : envGet env "ETHICALZEN_API_KEY" = some api_key)
    (hdc : envGet env "ETHICALZEN_DC_ID" = some dc_id) :
    invoke_bedrock_direct sigv4 (failNet e) env message model_id gi gv =
      Except.error (PyError.transportExn e) ∧
    invoke_via_proxy sigv4 (failNet e) env message model_id gi gv =
      Except.error (PyError.transportExn e) ∧
    chat sigv4 (failNet e) env
      { message := message, mode := ChatMode.direct, model_id := model_id,
        guardrail_identifier := gi, guardrail_version := gv } =
      ApiResult.httpError 500 e ∧
    chat sigv4 (failNet e) env
      { message := message, mode := ChatMode.mode_a, model_id := model_id,
        guardrail_identifier := gi, guardrail_version := gv } =
      ApiResult.httpError 500 e := by
  have hub : uses_bearer_token env = true := by
    simp [uses_bearer_token, hbt, htok]
  have hdirect :
      invoke_bedrock_direct sigv4 (failNet e) env message model_id gi gv =
        Except.error (PyError.transportExn e) := by
    simp [invoke_bedrock_direct, hub, build_bearer_headers, envIndex, hbt, failNet]
  have hproxy :
      invoke_via_proxy sigv4 (failNet e) env message model_id gi gv =
        Except.error (PyError.transportExn e) := by
    simp [invoke_via_proxy, hub, build_bearer_headers, envIndex, hbt, hapi, hdc, failNet]
  refine ⟨hdirect, hproxy, ?_, ?_⟩
  · simp [chat, hdirect, pyErrorStr]
  · simp [chat, hproxy, pyErrorStr]

/-- Witness for the amended C3 at a concrete configuration. -/
theorem c3_amended_transport_failure_raises_witness :
    invoke_bedrock_direct wSig (failNet "timed out") wEnvBearer "hi" "m" none none =
      Except.error (PyError.transportExn "timed out") ∧
    invoke_via_proxy wSig (failNet "timed out") wEnvBearer "hi" "m" none none =
      Except.error (PyError.transportExn "timed out") ∧
    chat wSig (failNet "timed out") wEnvBearer
      { message := "hi", mode := ChatMode.direct, model_id := "m",
        guardrail_identifier := none, guardrail_version := none } =
      ApiResult.httpError 500 "timed out" ∧
    chat wSig (failNet "timed out") wEnvBearer
      { message := "hi", mode := ChatMode.mode_a, model_id := "m",
        guardrail_identifier := none, guardrail_version := none } =
      ApiResult.httpError 500 "timed out" :=
  c3_amended_transport_failure_raises wSig wEnvBearer "hi" "m" "tok" "key" "dc1"
    "timed out" none none rfl (by decide) rfl rfl
